import Mathlib

/-!
Shallow embedding of getRates.js (src/index.js), a command line app that
reads a cached exchange-rate snapshot, fetches fresh data over HTTP when
the cache is absent or stale, derives the EUR/AUD cross rate and its
inverse, and prints a colourised summary.

Modelling conventions:
* JavaScript numbers appearing as exchange rates are embedded as rationals.
  The only arithmetic the program performs on them is division, reciprocal
  and rounding to 4 decimal places, all exact on the rationals used here.
* toFixed(4) produces a decimal string; the program then compares that
  string numerically against thresholds. We embed the rounded value as the
  rational it denotes (JS toFixed rounds to the nearest multiple of 1e-4,
  ties toward the larger candidate, which is floor of x*10000 + 1/2).
* A parsed JSON payload is an ApiObj: a timestamp in unix seconds, an
  optional rates object with optional AUD and EUR entries, and the
  truthiness of its error field.
* JS truthiness of a numeric field: absent and 0 are falsy, all other
  numbers truthy.
* Fallible stages return Except or Option; the uncaught exception a stage
  may throw is its error value.
-/

deriving instance DecidableEq for Except

/-- The rates sub-object of a payload; each currency entry may be absent. -/
structure RatesData where
  AUD : Option ℚ
  EUR : Option ℚ
  deriving DecidableEq, Repr

/-- A parsed JSON payload: cache file contents or HTTP response body.
The error field records the truthiness of obj.error. -/
structure ApiObj where
  timestamp : ℤ
  rates : Option RatesData
  error : Bool
  deriving DecidableEq, Repr

/-- What showResult prints: the header timestamp in ms, the two rounded
rates, and whether each rate line got the green.blink colour (true) or
magenta (false). -/
structure Output where
  lastUpdatedMs : ℤ
  rateEurAud : ℚ
  rateAudEur : ℚ
  colourEurAudGreen : Bool
  colourAudEurGreen : Bool
  deriving DecidableEq, Repr

/-- JS truthiness of an optional numeric field: absent or zero is falsy. -/
def jsTruthy : Option ℚ → Bool
  | none => false
  | some q => q != 0

/-- The guard on line 29: obj.rates && obj.rates.AUD && obj.rates.EUR. -/
def ratesGuard (obj : ApiObj) : Bool :=
  match obj.rates with
  | none => false
  | some r => jsTruthy r.AUD && jsTruthy r.EUR

/-- Number.prototype.toFixed(4) on the exact value: round to the nearest
multiple of 1/10000, ties to the larger candidate. -/
def toFixed4 (q : ℚ) : ℚ :=
  ((⌊q * 10000 + 1/2⌋ : ℤ) : ℚ) / 10000

/-- The cross rate the specification names crossRate(r1, r2): the ratio
r1 / r2 rounded as the program rounds it (lines 36 and 40). -/
def crossRate (r1 r2 : ℚ) : ℚ :=
  toFixed4 (r1 / r2)

/-- showResult (lines 28-59): validate the rates guard, derive the
AUD-per-EUR rate and its reciprocal, round both to 4 decimal places,
pick colours by the strict thresholds 1.5 and 0.7 applied to the rounded
values, and build the printed summary. Throwing is modelled as
Except.error with the thrown message. -/
def showResult (obj : ApiObj) : Except String Output :=
  match obj.rates with
  | some { AUD := some a, EUR := some e } =>
    if a = 0 ∨ e = 0 then
      Except.error "Rates missing from data!"
    else
      let rateEurAud : ℚ := a / e
      let rateAudEur : ℚ := 1 / rateEurAud
      let rEA := toFixed4 rateEurAud
      let rAE := toFixed4 rateAudEur
      Except.ok
        { lastUpdatedMs := obj.timestamp * 1000
          rateEurAud := rEA
          rateAudEur := rAE
          colourEurAudGreen := decide (rEA > 3/2)
          colourAudEurGreen := decide (rAE > 7/10) }
  | _ => Except.error "Rates missing from data!"

/-- Events the program logs on the way to its result. -/
inductive LogEvent where
  /-- The catch block on lines 80-83: missing cache file, corrupt cache, or
  an exception thrown by showResult on the cached object. -/
  | cacheError
  /-- The message printed when the HTTP callback runs (line 91). -/
  | fetching
  /-- A cache-write failure reported on line 104. -/
  | writeError
  deriving DecidableEq, Repr

/-- The terminal outcome of one run of the program. -/
inductive RunResult where
  /-- Fresh cache: showResult succeeded on the cached object, no fetch. -/
  | cachedShown (out : Output)
  /-- The API key was missing or invalid; aborted before the request. -/
  | keyError (msg : String)
  /-- Fetched, parsed, and showResult succeeded on the response body. -/
  | fetchedShown (out : Output)
  /-- The response body had a truthy error field; reported via
  console.error and presentation skipped. -/
  | apiError (body : ApiObj)
  /-- showResult threw on the fetched body; nothing catches it. -/
  | uncaught (msg : String)
  deriving DecidableEq, Repr

/-- The cache block (lines 66-83): read and parse the cache file, and if
the data is from within the last hour show it and end the program. Any
exception inside the try lands in the catch, which logs and falls
through. Returns the logs and the successful output when the program
ended here. A none cache stands for a missing or unparseable file. -/
def cacheAttempt (cache : Option ApiObj) (now : ℤ) : List LogEvent × Option Output :=
  match cache with
  | none => ([LogEvent.cacheError], none)
  | some obj =>
    if obj.timestamp * 1000 > now - 1000 * 60 * 60 then
      match showResult obj with
      | Except.ok out => ([], some out)
      | Except.error _ => ([LogEvent.cacheError], none)
    else ([], none)

/-- The expected credential file location the error message points at. -/
def apiKeyFile : String := "api_key.txt"

/-- The abort message of lines 121-125, which names the key file. -/
def keyErrorMsg : String :=
  "Error: please provide your openexchangerates.org account API key in \n  "
    ++ apiKeyFile ++ "\n"

/-- String.prototype.trim of JavaScript: drop leading and trailing
whitespace. Written structurally over the character list so that it
evaluates inside the kernel. -/
def jsTrim (s : String) : String :=
  String.mk (((s.data.dropWhile Char.isWhitespace).reverse.dropWhile
    Char.isWhitespace).reverse)

/-- The key block (lines 115-126): read the key file, trim it, and require
a nonempty string of exactly 32 characters; otherwise abort with the
message naming the file. A none input stands for a failed file read. -/
def validateKey (raw : Option String) : Except String String :=
  match raw with
  | none => Except.error keyErrorMsg
  | some s =>
    let apiKey := jsTrim s
    if apiKey = "" ∨ apiKey.length ≠ 32 then Except.error keyErrorMsg
    else Except.ok apiKey

/-- The response end handler (lines 101-111): write the body to the cache
file (a failure is only logged), then short-circuit on a truthy error
field, else present the in-memory object. The body is the parsed
response; writeOk tells whether the fs.writeFile callback got an error. -/
def responseOnEnd (body : ApiObj) (writeOk : Bool) : List LogEvent × RunResult :=
  let wlogs := if writeOk then ([] : List LogEvent) else [LogEvent.writeError]
  if body.error then
    (wlogs, RunResult.apiError body)
  else
    match showResult body with
    | Except.ok out => (wlogs, RunResult.fetchedShown out)
    | Except.error m => (wlogs, RunResult.uncaught m)

/-- One run of the whole program as a function of its environment. -/
structure Env where
  /-- Parsed cache file; none when missing or unparseable. -/
  cache : Option ApiObj
  /-- Date.now() in milliseconds. -/
  now : ℤ
  /-- Raw contents of api_key.txt; none when the read fails. -/
  apiKeyRaw : Option String
  /-- The parsed HTTP response body, consulted only when a fetch happens. -/
  responseBody : ApiObj
  /-- Whether the cache write inside the response handler succeeds. -/
  writeOk : Bool
  deriving DecidableEq, Repr

/-- The whole program (top to bottom of index.js): try the cache; on
fall-through validate the key; then issue the single http.request and
handle the response. The first component counts HTTP requests issued. -/
def run (env : Env) : Nat × List LogEvent × RunResult :=
  match cacheAttempt env.cache env.now with
  | (logs, some out) => (0, logs, RunResult.cachedShown out)
  | (logs, none) =>
    match validateKey env.apiKeyRaw with
    | Except.error m => (0, logs, RunResult.keyError m)
    | Except.ok _ =>
      let r := responseOnEnd env.responseBody env.writeOk
      (1, logs ++ (LogEvent.fetching :: r.1), r.2)

/-- A 32-character API key used by concrete test environments. -/
def validKey : String := "abcdefghijklmnopqrstuvwxyz012345"

/-!
Helper lemmas relating the rates guard to the outcome of showResult.
-/

/-- When the guard of line 29 passes, showResult returns a summary. -/
theorem showResult_ok_of_guard (obj : ApiObj) (h : ratesGuard obj = true) :
    ∃ out, showResult obj = Except.ok out := by
  rcases obj with ⟨t, rates, err⟩
  rcases rates with _ | ⟨aud, eur⟩
  · simp [ratesGuard] at h
  · rcases aud with _ | a
    · simp [ratesGuard, jsTruthy] at h
    · rcases eur with _ | e
      · simp [ratesGuard, jsTruthy] at h
      · simp only [ratesGuard, jsTruthy, Bool.and_eq_true, bne_iff_ne, ne_eq] at h
        have hne : ¬(a = 0 ∨ e = 0) := by push_neg; exact ⟨h.1, h.2⟩
        refine ⟨{ lastUpdatedMs := t * 1000,
                  rateEurAud := toFixed4 (a / e),
                  rateAudEur := toFixed4 (1 / (a / e)),
                  colourEurAudGreen := decide (toFixed4 (a / e) > 3/2),
                  colourAudEurGreen := decide (toFixed4 (1 / (a / e)) > 7/10) }, ?_⟩
        simp only [showResult]
        rw [if_neg hne]

/-- When the guard of line 29 fails, showResult throws. -/
theorem showResult_error_of_guard (obj : ApiObj) (h : ratesGuard obj = false) :
    showResult obj = Except.error "Rates missing from data!" := by
  rcases obj with ⟨t, rates, err⟩
  rcases rates with _ | ⟨aud, eur⟩
  · simp [showResult]
  · rcases aud with _ | a
    · simp [showResult]
    · rcases eur with _ | e
      · simp [showResult]
      · simp only [ratesGuard, jsTruthy, Bool.and_eq_false_iff, bne_eq_false_iff_eq] at h
        simp only [showResult]
        rw [if_pos]
        rcases h with h | h
        · exact Or.inl h
        · exact Or.inr h

/-- A payload lacking rates.AUD or rates.EUR fails the guard. -/
theorem showResult_error_of_missing (obj : ApiObj)
    (h : obj.rates.bind RatesData.AUD = none ∨ obj.rates.bind RatesData.EUR = none) :
    showResult obj = Except.error "Rates missing from data!" := by
  apply showResult_error_of_guard
  rcases obj with ⟨t, rates, err⟩
  rcases rates with _ | ⟨aud, eur⟩
  · simp [ratesGuard]
  · rcases h with h | h <;> simp only [Option.bind, ratesGuard] at h ⊢
    · rw [h]; simp [jsTruthy]
    · rw [h]; simp [jsTruthy]

/-- A payload with a zero AUD or EUR rate fails the guard. -/
theorem showResult_error_of_zero (obj : ApiObj)
    (h : obj.rates.bind RatesData.AUD = some 0 ∨ obj.rates.bind RatesData.EUR = some 0) :
    showResult obj = Except.error "Rates missing from data!" := by
  apply showResult_error_of_guard
  rcases obj with ⟨t, rates, err⟩
  rcases rates with _ | ⟨aud, eur⟩
  · simp [ratesGuard]
  · rcases h with h | h <;> simp only [Option.bind, ratesGuard] at h ⊢
    · rw [h]; simp [jsTruthy]
    · rw [h]; simp [jsTruthy]

/-!
Claim theorems.
-/

/-- C4: for every snapshot in which one of the two base rates is zero, the
rate calculation fails with an explicit error (the thrown message), and
since showResult aborts before dividing, no Infinity or NaN value can
reach the printed output. -/
theorem c4_zero_rate_fails (obj : ApiObj)
    (h : obj.rates.bind RatesData.AUD = some 0 ∨ obj.rates.bind RatesData.EUR = some 0) :
    showResult obj = Except.error "Rates missing from data!" :=
  showResult_error_of_zero obj h

/-- A snapshot whose AUD rate is zero, for the C4 witness. -/
def c4Obj : ApiObj :=
  { timestamp := 0, rates := some { AUD := some 0, EUR := some 1 }, error := false }

/-- Witness for C4 at a concrete zero-rate snapshot. -/
theorem c4_zero_rate_fails_witness :
    c4Obj.rates.bind RatesData.AUD = some 0 ∧
      showResult c4Obj = Except.error "Rates missing from data!" :=
  ⟨rfl, c4_zero_rate_fails c4Obj (Or.inl rfl)⟩

/-- C7: for every otherwise-valid payload lacking rates.AUD or rates.EUR,
showResult fails with the explicit thrown error instead of computing a
rate, so no NaN is computed or printed. -/
theorem c7_missing_rates_fails (obj : ApiObj)
    (h : obj.rates.bind RatesData.AUD = none ∨ obj.rates.bind RatesData.EUR = none) :
    showResult obj = Except.error "Rates missing from data!" :=
  showResult_error_of_missing obj h

/-- A snapshot with a rates object that lacks AUD, for the C7 witness. -/
def c7Obj : ApiObj :=
  { timestamp := 0, rates := some { AUD := none, EUR := some 1 }, error := false }

/-- Witness for C7 at a concrete snapshot lacking rates.AUD. -/
theorem c7_missing_rates_fails_witness :
    c7Obj.rates.bind RatesData.AUD = none ∧
      showResult c7Obj = Except.error "Rates missing from data!" :=
  ⟨rfl, c7_missing_rates_fails c7Obj (Or.inl rfl)⟩

/-- C6: a fetched body whose error field is truthy short-circuits the end
handler with the error object reported; the result is the apiError
report, never a presentation of that body. -/
theorem c6_error_short_circuits (body : ApiObj) (writeOk : Bool)
    (h : body.error = true) :
    (responseOnEnd body writeOk).2 = RunResult.apiError body := by
  simp [responseOnEnd, h]

/-- An error payload, for the C6 witness. -/
def c6Body : ApiObj :=
  { timestamp := 0, rates := none, error := true }

/-- Witness for C6 at a concrete error payload. -/
theorem c6_error_short_circuits_witness :
    c6Body.error = true ∧ (responseOnEnd c6Body true).2 = RunResult.apiError c6Body :=
  ⟨rfl, c6_error_short_circuits c6Body true rfl⟩

/-- C8: a cache-write failure inside the end handler is non-fatal: the
run result is identical to the one with a successful write, and the only
difference is the logged write error. -/
theorem c8_write_failure_nonfatal (body : ApiObj) :
    (responseOnEnd body false).2 = (responseOnEnd body true).2 ∧
      LogEvent.writeError ∈ (responseOnEnd body false).1 ∧
      LogEvent.writeError ∉ (responseOnEnd body true).1 := by
  unfold responseOnEnd
  cases hb : body.error
  · cases hs : showResult body <;> simp
  · simp

/-- The snapshot of claim C3: AUD 1.5, EUR 1.0. -/
def c3Obj : ApiObj :=
  { timestamp := 0, rates := some { AUD := some (3/2), EUR := some 1 }, error := false }

/-- Evaluation of showResult on the C3 snapshot: cross rate 1.5000,
inverse 0.6667, and neither line gets the green colour, because the
thresholds on lines 46-47 are strict and 1.5000 does not exceed 1.5. -/
theorem showResult_c3Obj :
    showResult c3Obj = Except.ok
      { lastUpdatedMs := 0, rateEurAud := 3/2, rateAudEur := 6667/10000,
        colourEurAudGreen := false, colourAudEurGreen := false } := by
  have hEA : toFixed4 ((3:ℚ)/2 / 1) = 3/2 := by norm_num [toFixed4]
  have hAE : toFixed4 (1 / ((3:ℚ)/2 / 1)) = 6667/10000 := by
    norm_num [toFixed4]
  simp only [showResult, c3Obj]
  rw [if_neg (by norm_num)]
  simp only [hEA, hAE]
  norm_num

/-- C3 counterexample: the claim says the AUD-per-EUR value 1.5 is
highlighted, but on this exact input the program picks magenta for that
line (the threshold comparison rateEurAud > 1.5 is strict). -/
theorem c3_counterexample :
    (showResult c3Obj).toOption.map Output.colourEurAudGreen = some false := by
  rw [showResult_c3Obj]; rfl

/-- C3 amended: on the snapshot with rates AUD 1.5 and EUR 1.0 the
program computes cross rate 1.5000 and inverse 0.6667, and neither the
AUD-per-EUR line nor the EUR-per-AUD line is highlighted, since 1.5 does
not strictly exceed the 1.5 threshold and 0.6667 does not strictly
exceed 0.7. -/
theorem c3_rates_example :
    showResult c3Obj = Except.ok
      { lastUpdatedMs := 0, rateEurAud := 3/2, rateAudEur := 6667/10000,
        colourEurAudGreen := false, colourAudEurGreen := false } :=
  showResult_c3Obj

/-- C9: the highlight decision is made on the rounded value, not the
exact cross rate: whenever the exact AUD-per-EUR rate exceeds 1.5 but
rounds to 1.5000, the AUD-per-EUR line is not highlighted. -/
theorem c9_highlight_uses_rounded (obj : ApiObj) (a e : ℚ)
    (hr : obj.rates = some { AUD := some a, EUR := some e })
    (ha : 0 < a) (he : 0 < e)
    (_hgt : 3/2 < a / e) (hround : toFixed4 (a / e) = 3/2) :
    ∃ out, showResult obj = Except.ok out ∧ out.colourEurAudGreen = false := by
  have hne : ¬(a = 0 ∨ e = 0) := by
    push_neg
    exact ⟨ne_of_gt ha, ne_of_gt he⟩
  refine ⟨{ lastUpdatedMs := obj.timestamp * 1000,
            rateEurAud := toFixed4 (a / e),
            rateAudEur := toFixed4 (1 / (a / e)),
            colourEurAudGreen := decide (toFixed4 (a / e) > 3/2),
            colourAudEurGreen := decide (toFixed4 (1 / (a / e)) > 7/10) }, ?_, ?_⟩
  · simp only [showResult, hr]
    rw [if_neg hne]
  · simp only [hround]
    norm_num

/-- A snapshot whose exact cross rate 1.50004 exceeds 1.5 but rounds to
1.5000, for the C9 witness. -/
def c9Obj : ApiObj :=
  { timestamp := 0, rates := some { AUD := some (150004/100000), EUR := some 1 },
    error := false }

/-- Evaluation of the rounding at the C9 witness input. -/
theorem toFixed4_c9 : toFixed4 ((150004:ℚ)/100000 / 1) = 3/2 := by
  norm_num [toFixed4]

/-- Witness for C9 at the snapshot with exact cross rate 1.50004. -/
theorem c9_highlight_uses_rounded_witness :
    (3:ℚ)/2 < (150004:ℚ)/100000 / 1 ∧
      ∃ out, showResult c9Obj = Except.ok out ∧ out.colourEurAudGreen = false :=
  ⟨by norm_num,
    c9_highlight_uses_rounded c9Obj (150004/100000) 1 rfl (by norm_num) one_pos
      (by norm_num) toFixed4_c9⟩

/-- C5: when the trimmed credential is empty or does not have exactly 32
characters, the run aborts with the user-facing message that names the
expected key file location, and the HTTP request count is zero. The
cache hypothesis restricts to runs that reach the key check at all. -/
theorem c5_key_rejected (env : Env) (s : String)
    (hc : (cacheAttempt env.cache env.now).2 = none)
    (hs : env.apiKeyRaw = some s)
    (hlen : jsTrim s = "" ∨ (jsTrim s).length ≠ 32) :
    (run env).1 = 0 ∧ (run env).2.2 = RunResult.keyError keyErrorMsg ∧
      ∃ pre suf, keyErrorMsg = pre ++ apiKeyFile ++ suf := by
  have hkey : validateKey env.apiKeyRaw = Except.error keyErrorMsg := by
    rw [hs]
    simp only [validateKey]
    rw [if_pos hlen]
  obtain ⟨logs, hlogs⟩ : ∃ l, cacheAttempt env.cache env.now = (l, none) := by
    refine ⟨(cacheAttempt env.cache env.now).1, ?_⟩
    rw [← hc]
  refine ⟨?_, ?_, "Error: please provide your openexchangerates.org account API key in \n  ",
    "\n", rfl⟩ <;> simp [run, hlogs, hkey]

/-- An environment with no cache and a 31-character key, for C5. -/
def c5Env : Env :=
  { cache := none, now := 0, apiKeyRaw := some "abcdefghijklmnopqrstuvwxyz01234",
    responseBody := c6Body, writeOk := true }

/-- Witness for C5 at a concrete 31-character credential. -/
theorem c5_key_rejected_witness :
    (jsTrim "abcdefghijklmnopqrstuvwxyz01234").length ≠ 32 ∧
      (run c5Env).1 = 0 ∧ (run c5Env).2.2 = RunResult.keyError keyErrorMsg ∧
      ∃ pre suf, keyErrorMsg = pre ++ apiKeyFile ++ suf :=
  ⟨by decide, c5_key_rejected c5Env "abcdefghijklmnopqrstuvwxyz01234" rfl rfl
    (Or.inr (by decide))⟩

/-- C10: invalid rate data is handled asymmetrically by origin. A fresh
cached snapshot lacking rates.AUD or rates.EUR makes showResult throw
inside the try block; the catch logs it and the run falls through to
exactly one HTTP fetch. The same object arriving as the response body
makes the end handler finish with an uncaught exception, with no
further fetch. -/
theorem c10_asymmetric_invalid_data (env : Env) (obj : ApiObj) (k : String)
    (hc : env.cache = some obj)
    (hfresh : obj.timestamp * 1000 > env.now - 1000 * 60 * 60)
    (hmiss : obj.rates.bind RatesData.AUD = none ∨ obj.rates.bind RatesData.EUR = none)
    (herr : obj.error = false)
    (hkey : validateKey env.apiKeyRaw = Except.ok k) :
    ((run env).1 = 1 ∧ LogEvent.cacheError ∈ (run env).2.1) ∧
      (responseOnEnd obj env.writeOk).2 = RunResult.uncaught "Rates missing from data!" := by
  have hshow : showResult obj = Except.error "Rates missing from data!" :=
    showResult_error_of_missing obj hmiss
  have hca : cacheAttempt env.cache env.now = ([LogEvent.cacheError], none) := by
    rw [hc]
    simp only [cacheAttempt]
    rw [if_pos hfresh, hshow]
  refine ⟨?_, ?_⟩
  · simp [run, hca, hkey]
  · simp [responseOnEnd, herr, hshow]

/-- A fresh snapshot lacking rates.AUD, for the C10 witness. -/
def c10Obj : ApiObj :=
  { timestamp := 7200, rates := some { AUD := none, EUR := some 1 }, error := false }

/-- An environment holding the C10 snapshot both as fresh cache and as
the fetched response body. -/
def c10Env : Env :=
  { cache := some c10Obj, now := 7200000, apiKeyRaw := some validKey,
    responseBody := c10Obj, writeOk := true }

/-- Witness for C10 at the concrete fresh-but-invalid snapshot. -/
theorem c10_asymmetric_invalid_data_witness :
    ((run c10Env).1 = 1 ∧ LogEvent.cacheError ∈ (run c10Env).2.1) ∧
      (responseOnEnd c10Obj c10Env.writeOk).2 =
        RunResult.uncaught "Rates missing from data!" :=
  c10_asymmetric_invalid_data c10Env c10Obj validKey rfl (by decide) (Or.inl rfl) rfl
    (by decide)

/-- A valid snapshot whose age at now = 7200000 is exactly 3600000 ms. -/
def c1Obj : ApiObj :=
  { timestamp := 3600, rates := some { AUD := some 3, EUR := some 2 }, error := false }

/-- An environment where the cached snapshot is exactly one hour old and
the credential is valid. -/
def c1Env : Env :=
  { cache := some c1Obj, now := 7200000, apiKeyRaw := some validKey,
    responseBody := c1Obj, writeOk := true }

/-- C1 counterexample: the claim says a cached snapshot of age at most
3600000 ms is used without any HTTP request, but at age exactly 3600000
ms the strict comparison dataFrom > anHourAgo on line 76 is false and
the program issues a fetch. -/
theorem c1_counterexample :
    c1Env.now - c1Obj.timestamp * 1000 ≤ 3600000 ∧ (run c1Env).1 = 1 := by
  constructor
  · decide
  · have hca : cacheAttempt c1Env.cache c1Env.now = ([], none) := by
      simp only [c1Env, c1Obj, cacheAttempt]
      rw [if_neg (by decide)]
    have hkey : validateKey c1Env.apiKeyRaw = Except.ok validKey := by decide
    simp [run, hca, hkey]

/-- C1 amended: the fetcher is invoked exactly when the cache is absent
or at least an hour old. A cached snapshot that passes the rates guard
and is strictly younger than 3600000 ms is shown with no HTTP request;
with an absent cache, or a snapshot aged 3600000 ms or more, and a valid
credential, exactly one HTTP request is issued. -/
theorem c1_freshness_gate (env : Env) (obj : ApiObj) :
    (env.cache = some obj → ratesGuard obj = true →
        env.now - obj.timestamp * 1000 < 3600000 →
        (run env).1 = 0 ∧ ∃ out, (run env).2.2 = RunResult.cachedShown out) ∧
      (env.cache = none → (∃ k, validateKey env.apiKeyRaw = Except.ok k) →
        (run env).1 = 1) ∧
      (env.cache = some obj → 3600000 ≤ env.now - obj.timestamp * 1000 →
        (∃ k, validateKey env.apiKeyRaw = Except.ok k) → (run env).1 = 1) := by
  refine ⟨?_, ?_, ?_⟩
  · intro hc hg hage
    obtain ⟨out, hout⟩ := showResult_ok_of_guard obj hg
    have hfresh : obj.timestamp * 1000 > env.now - 1000 * 60 * 60 := by omega
    have hca : cacheAttempt env.cache env.now = ([], some out) := by
      rw [hc]
      simp only [cacheAttempt]
      rw [if_pos hfresh, hout]
    refine ⟨by simp [run, hca], out, by simp [run, hca]⟩
  · rintro hc ⟨k, hk⟩
    have hca : cacheAttempt env.cache env.now = ([LogEvent.cacheError], none) := by
      rw [hc]
      rfl
    simp [run, hca, hk]
  · rintro hc hage ⟨k, hk⟩
    have hstale : ¬(obj.timestamp * 1000 > env.now - 1000 * 60 * 60) := by omega
    have hca : cacheAttempt env.cache env.now = ([], none) := by
      rw [hc]
      simp only [cacheAttempt]
      rw [if_neg hstale]
    simp [run, hca, hk]

/-- A valid snapshot strictly younger than an hour at now = 7200000. -/
def c1FreshObj : ApiObj :=
  { timestamp := 7000, rates := some { AUD := some 3, EUR := some 2 }, error := false }

/-- An environment with the fresh valid snapshot cached, for the first
part of the C1 witness. -/
def c1FreshEnv : Env :=
  { cache := some c1FreshObj, now := 7200000, apiKeyRaw := some validKey,
    responseBody := c1Obj, writeOk := true }

/-- An environment with no cache file at all, for the second part of the
C1 witness. -/
def c1NoCacheEnv : Env :=
  { cache := none, now := 7200000, apiKeyRaw := some validKey, responseBody := c1Obj,
    writeOk := true }

/-- Witness for C1: a fresh valid snapshot is shown with zero fetches, an
absent cache triggers one fetch, and the one-hour-old snapshot of the
counterexample environment also triggers one fetch. -/
theorem c1_freshness_gate_witness :
    ((run c1FreshEnv).1 = 0 ∧
        ∃ out, (run c1FreshEnv).2.2 = RunResult.cachedShown out) ∧
      (run c1NoCacheEnv).1 = 1 ∧ (run c1Env).1 = 1 :=
  ⟨(c1_freshness_gate c1FreshEnv c1FreshObj).1 rfl
      (by simp [c1FreshObj, ratesGuard, jsTruthy]) (by decide),
    (c1_freshness_gate c1NoCacheEnv c1Obj).2.1 rfl ⟨validKey, by decide⟩,
    (c1_freshness_gate c1Env c1Obj).2.2 rfl (by decide) ⟨validKey, by decide⟩⟩

/-- The rounding of toFixed4 moves a value by at most half of the last
retained decimal place. -/
theorem toFixed4_err (q : ℚ) : |toFixed4 q - q| ≤ 1 / 20000 := by
  have h1 : ((⌊q * 10000 + 1/2⌋ : ℤ) : ℚ) ≤ q * 10000 + 1/2 :=
    Int.floor_le _
  have h2 : q * 10000 + 1/2 < ((⌊q * 10000 + 1/2⌋ : ℤ) : ℚ) + 1 :=
    Int.lt_floor_add_one _
  unfold toFixed4
  rw [abs_le]
  constructor <;> linarith

/-- C2 counterexample: at r1 = 100000 and r2 = 1 the product of the two
rounded cross rates is 0, not 1 within 4-decimal tolerance: the inverse
0.00001 rounds to 0.0000. -/
theorem c2_counterexample :
    crossRate 100000 1 * crossRate 1 100000 = 0 ∧
      ¬ |crossRate 100000 1 * crossRate 1 100000 - 1| ≤ 1 / 10000 := by
  have h1 : crossRate 100000 1 = 100000 := by norm_num [crossRate, toFixed4]
  have h2 : crossRate 1 100000 = 0 := by norm_num [crossRate, toFixed4]
  rw [h1, h2]
  norm_num

/-- C2 amended: for all positive rates the product of the two rounded
cross rates equals 1 up to a tolerance that scales with the magnitudes
of the exact ratio and its reciprocal; a fixed 4-decimal tolerance holds
only when that ratio is moderate and fails in general. -/
theorem c2_crossRate_product (r1 r2 : ℚ) (h1 : 0 < r1) (h2 : 0 < r2) :
    |crossRate r1 r2 * crossRate r2 r1 - 1| ≤
      (r1 / r2 + r2 / r1 + 1 / 20000) / 20000 := by
  simp only [crossRate]
  set x := r1 / r2 with hxdef
  have hxpos : 0 < x := div_pos h1 h2
  have hxne : x ≠ 0 := ne_of_gt hxpos
  have hinv : r2 / r1 = x⁻¹ := by
    rw [hxdef, inv_div]
  rw [hinv]
  set d1 := toFixed4 x - x with hd1def
  set d2 := toFixed4 x⁻¹ - x⁻¹ with hd2def
  have hb1 : |d1| ≤ 1 / 20000 := toFixed4_err x
  have hb2 : |d2| ≤ 1 / 20000 := toFixed4_err x⁻¹
  have e1 : toFixed4 x = x + d1 := by rw [hd1def]; ring
  have e2 : toFixed4 x⁻¹ = x⁻¹ + d2 := by rw [hd2def]; ring
  have hxx : x * x⁻¹ = 1 := mul_inv_cancel₀ hxne
  have key : toFixed4 x * toFixed4 x⁻¹ - 1 = x * d2 + d1 * x⁻¹ + d1 * d2 := by
    rw [e1, e2]
    linear_combination hxx
  have hinvpos : 0 < x⁻¹ := inv_pos.mpr hxpos
  calc |toFixed4 x * toFixed4 x⁻¹ - 1|
      = |x * d2 + d1 * x⁻¹ + d1 * d2| := by rw [key]
    _ ≤ |x * d2 + d1 * x⁻¹| + |d1 * d2| := abs_add _ _
    _ ≤ |x * d2| + |d1 * x⁻¹| + |d1 * d2| := by
        have := abs_add (x * d2) (d1 * x⁻¹)
        linarith
    _ = x * |d2| + |d1| * x⁻¹ + |d1| * |d2| := by
        rw [abs_mul, abs_mul, abs_mul, abs_of_pos hxpos, abs_of_pos hinvpos]
    _ ≤ x * (1 / 20000) + (1 / 20000) * x⁻¹ + (1 / 20000) * (1 / 20000) := by
        have t1 : x * |d2| ≤ x * (1 / 20000) :=
          mul_le_mul_of_nonneg_left hb2 (le_of_lt hxpos)
        have t2 : |d1| * x⁻¹ ≤ (1 / 20000) * x⁻¹ :=
          mul_le_mul_of_nonneg_right hb1 (le_of_lt hinvpos)
        have t3 : |d1| * |d2| ≤ (1 / 20000) * (1 / 20000) :=
          mul_le_mul hb1 hb2 (abs_nonneg _) (by norm_num)
        linarith
    _ = (x + x⁻¹ + 1 / 20000) / 20000 := by ring

/-- Witness for C2 at r1 = r2 = 1, where the bound applies with both
rates positive. -/
theorem c2_crossRate_product_witness :
    (0:ℚ) < 1 ∧
      |crossRate 1 1 * crossRate 1 1 - 1| ≤ ((1:ℚ) / 1 + 1 / 1 + 1 / 20000) / 20000 :=
  ⟨one_pos, c2_crossRate_product 1 1 one_pos one_pos⟩
